import Mathlib

/-!
Shallow embedding of src/src/page/CrossChain/erc20/token.js.

Addresses are modelled as strings; on-chain numeric fields (the decoded
`target` address and `timestamp` of a backing-contract registration record)
as naturals, with 0 playing the role of the zero address / falsy value.
External collaborators (chain reads, the string-typed symbol() call, the
wallet account) are packaged into an explicit environment record, so every
exported function of the module becomes a pure Lean function of that
environment.
-/

namespace Wormhole

/-- Registration record stored by the backing contract, as decoded by
`getTokenRegisterStatus`: `target` is the value of
`Web3.utils.hexToNumber(target)` (0 for the zero address) and `timestamp`
the value of `+timestamp`. -/
structure RegistrationRecord where
  target : Nat
  timestamp : Nat
deriving Repr, DecidableEq

/-- Environment of external collaborators used by the registration path of
token.js: `isAddr` is `Web3.utils.isAddress`; `assets` the read
`backingContract.methods.assets(address).call()`; `symbolString` the
string-typed `symbol()` call of `getSymbolType` (`none` models the call
throwing); `fallbackSymbol` the symbol returned by the
`getSymbolAndDecimals` fallback resolver; `activeAccount` the result of
`getMetamaskActiveAccount`. -/
structure ChainEnv where
  isAddr : String → Bool
  assets : String → RegistrationRecord
  symbolString : String → Option String
  fallbackSymbol : String → String
  activeAccount : String

/-- Status code 0, documented in token.js line 194 as "unregister". -/
def unregistered : Nat := 0

/-- Status code 1, documented in token.js line 194 as "registered". -/
def registered : Nat := 1

/-- Status code 2, documented in token.js line 194 as "registering". -/
def registering : Nat := 2

/-- Observable outcome of one `getTokenRegisterStatus` call: whether the
invalid-address warning was logged, how many chain reads
(`backingContract.methods.assets(...).call()`) were performed, and the
returned value (`none` models the bare `return`, i.e. `undefined`). -/
structure StatusResult where
  warned : Bool
  chainReads : Nat
  status : Option Nat
deriving Repr, DecidableEq

/-- Embedding of `getTokenRegisterStatus` (token.js lines 196-219).
The guard `!address || !Web3.utils.isAddress(address)` logs a warning and
returns undefined; otherwise the registration record is read and mapped to
2 (`registering`) when `timestamp > 0` and the target is falsy, to
1 (`registered`) when `timestamp > 0` and the target is truthy, and to
0 (`unregistered`) otherwise. -/
def getTokenRegisterStatus (env : ChainEnv) (address : String) : StatusResult :=
  if address = "" || !env.isAddr address then
    { warned := true, chainReads := 0, status := none }
  else
    let r := env.assets address
    let isTargetTruthy : Bool := r.target ≠ 0
    let isTimestampExist : Bool := 0 < r.timestamp
    { warned := false
      chainReads := 1
      status :=
        if isTimestampExist && !isTargetTruthy then some registering
        else if isTimestampExist && isTargetTruthy then some registered
        else some unregistered }

/-- Embedding of `hasRegistered` (token.js lines 221-225): the JS coercion
`!!status` sends `undefined` and `0` to `false` and every other status code
to `true`. -/
def hasRegistered (env : ChainEnv) (address : String) : Bool :=
  match (getTokenRegisterStatus env address).status with
  | none => false
  | some n => n ≠ 0

/-- Result record of `getSymbolType`. -/
structure SymbolType where
  symbol : String
  isString : Bool
deriving Repr, DecidableEq

/-- Embedding of `getSymbolType` (token.js lines 143-154): try the
string-typed `symbol()` call; on success return its value with
`isString := true`, on a throw recover via the `getSymbolAndDecimals`
fallback resolver with `isString := false`. The function is total: the
failure is never surfaced. -/
def getSymbolType (env : ChainEnv) (address : String) : SymbolType :=
  match env.symbolString address with
  | some s => { symbol := s, isString := true }
  | none => { symbol := env.fallbackSymbol address, isString := false }

/-- Sample environment: one valid address whose record has a positive
timestamp and a zero target. -/
def envRegistering : ChainEnv :=
  { isAddr := fun a => a == "0x1F4E71cA23f2390669207a06dDDef70BDE75b679"
    assets := fun _ => { target := 0, timestamp := 100 }
    symbolString := fun _ => some "RING"
    fallbackSymbol := fun _ => ""
    activeAccount := "0xacc" }

/-- C1: for every registration record read for a syntactically valid
address, the returned status is `registering` (2) when `timestamp > 0` and
`target == 0`, `registered` (1) when `timestamp > 0` and `target != 0`, and
`unregistered` (0) in every other case — in particular when
`timestamp == 0` and `target != 0`. -/
theorem status_matches_decision_table (env : ChainEnv) (address : String)
    (hne : address ≠ "") (hva : env.isAddr address = true) :
    (0 < (env.assets address).timestamp → (env.assets address).target = 0 →
      (getTokenRegisterStatus env address).status = some registering) ∧
    (0 < (env.assets address).timestamp → (env.assets address).target ≠ 0 →
      (getTokenRegisterStatus env address).status = some registered) ∧
    ((env.assets address).timestamp = 0 →
      (getTokenRegisterStatus env address).status = some unregistered) := by
  refine ⟨fun ht htg => ?_, fun ht htg => ?_, fun ht => ?_⟩
  · simp [getTokenRegisterStatus, hne, hva, ht, htg, registering]
  · simp [getTokenRegisterStatus, hne, hva, ht, htg, registered]
  · simp [getTokenRegisterStatus, hne, hva, ht, unregistered]

/-- C1 witness: the decision table evaluated in `envRegistering` at its
valid address, whose record has `timestamp = 100 > 0` and `target = 0`. -/
theorem status_matches_decision_table_witness :
    (getTokenRegisterStatus envRegistering
        "0x1F4E71cA23f2390669207a06dDDef70BDE75b679").status
      = some registering :=
  (status_matches_decision_table envRegistering
      "0x1F4E71cA23f2390669207a06dDDef70BDE75b679"
      (by decide) (by decide)).1 (by decide) (by decide)

/-- Sample environment in which no address is valid: every status query hits
the invalid-address guard, and the string-typed symbol call throws. -/
def envEmpty : ChainEnv :=
  { isAddr := fun _ => false
    assets := fun _ => { target := 0, timestamp := 0 }
    symbolString := fun _ => none
    fallbackSymbol := fun _ => "KTON"
    activeAccount := "" }

/-- C3 counterexample: for the empty (invalid) address the status query
returns `undefined` (`none`), which differs from `some unregistered`, yet
`hasRegistered` coerces `undefined` to `false` — so the claimed equivalence
"IsRegistered(addr) = true iff Status(addr) is not Unregistered" fails. -/
theorem isRegistered_iff_not_unregistered_counterexample :
    ¬ (hasRegistered envEmpty "" = true ↔
        (getTokenRegisterStatus envEmpty "").status ≠ some unregistered) := by
  decide

/-- C3 amended: for every address, `hasRegistered` returns `true` iff the
status query returns a present status different from `unregistered`; for an
invalid address the status is absent and `hasRegistered` returns `false`. -/
theorem isRegistered_iff_status_present_not_unregistered (env : ChainEnv)
    (address : String) :
    hasRegistered env address = true ↔
      ((getTokenRegisterStatus env address).status ≠ none ∧
        (getTokenRegisterStatus env address).status ≠ some unregistered) := by
  cases h : (getTokenRegisterStatus env address).status with
  | none => simp [hasRegistered, h]
  | some n => simp [hasRegistered, h, unregistered]

/-- C5: `getSymbolType` returns the string-typed call's symbol with
`isString = true` when that call succeeds, and the fallback resolver's
symbol with `isString = false` when it throws; in both cases a value is
returned, never an error. -/
theorem symbolType_success_and_fallback (env : ChainEnv) (address : String) :
    (∀ s, env.symbolString address = some s →
      getSymbolType env address = { symbol := s, isString := true }) ∧
    (env.symbolString address = none →
      getSymbolType env address =
        { symbol := env.fallbackSymbol address, isString := false }) := by
  constructor
  · intro s hs
    simp [getSymbolType, hs]
  · intro hn
    simp [getSymbolType, hn]

/-- C5 witness: both branches evaluated — the string-typed call succeeds in
`envRegistering` and throws in `envEmpty`. -/
theorem symbolType_success_and_fallback_witness :
    getSymbolType envRegistering "0xtoken" = { symbol := "RING", isString := true } ∧
    getSymbolType envEmpty "0xtoken" = { symbol := "KTON", isString := false } :=
  ⟨(symbolType_success_and_fallback envRegistering "0xtoken").1 "RING" rfl,
    (symbolType_success_and_fallback envEmpty "0xtoken").2 rfl⟩

/-- C7: for every empty or syntactically invalid address, the status query
logs the warning, performs no chain read, and returns an absent result
(it does not throw: the embedding is a total function). -/
theorem invalid_address_status_absent (env : ChainEnv) (address : String)
    (h : address = "" ∨ env.isAddr address = false) :
    getTokenRegisterStatus env address =
      { warned := true, chainReads := 0, status := none } := by
  rcases h with h | h <;> simp [getTokenRegisterStatus, h]

/-- C7 witness: the invalid-address branch evaluated at a malformed
address in `envRegistering`. -/
theorem invalid_address_status_absent_witness :
    getTokenRegisterStatus envRegistering "not-an-address" =
      { warned := true, chainReads := 0, status := none } :=
  invalid_address_status_absent envRegistering "not-an-address"
    (Or.inr (by decide))

/-- Observable events of one `registerToken` call, in program order:
the `getSymbolType` probe, the `.send` of one of the two registration
entry points of the backing contract, and the start of
`monitorEventProof`. -/
inductive RegisterEvent
  | probeSymbol
  | submitRegisterToken
  | submitRegisterTokenBytes32
  | startMonitor
deriving Repr, DecidableEq

/-- Embedding of `registerToken` (token.js lines 117-136): when
`hasRegistered` is true the call returns undefined having done nothing;
otherwise it probes the symbol type, submits the string variant
`registerToken` if the probe reported a string-typed symbol and
`registerTokenBytes32` otherwise, and only after the submission starts
`monitorEventProof`, returning its subscription (modelled by the monitored
address). -/
def registerTokenOp (env : ChainEnv) (address : String) :
    List RegisterEvent × Option String :=
  if hasRegistered env address then ([], none)
  else
    let st := getSymbolType env address
    let submit := if st.isString then RegisterEvent.submitRegisterToken
      else RegisterEvent.submitRegisterTokenBytes32
    ([RegisterEvent.probeSymbol, submit, RegisterEvent.startMonitor],
      some address)

/-- C4: when `hasRegistered` is true, `registerToken` is a no-op returning
nothing; otherwise it probes the symbol type, submits exactly one
registration transaction (the string variant iff the probe succeeded as a
string), starts monitoring only after the submission, and returns the
subscription handle. -/
theorem register_noop_or_submit_then_monitor (env : ChainEnv)
    (address : String) :
    (hasRegistered env address = true →
      registerTokenOp env address = ([], none)) ∧
    (hasRegistered env address = false →
      registerTokenOp env address =
        ([RegisterEvent.probeSymbol,
          if (getSymbolType env address).isString then
            RegisterEvent.submitRegisterToken
          else RegisterEvent.submitRegisterTokenBytes32,
          RegisterEvent.startMonitor], some address)) := by
  constructor <;> intro h <;> simp [registerTokenOp, h]

/-- C4 witness: both branches evaluated — in `envRegistering` the address
is already registering so the call is a no-op; in `envEmpty` the address is
unregistered and the bytes32 variant is submitted before monitoring. -/
theorem register_noop_or_submit_then_monitor_witness :
    registerTokenOp envRegistering
        "0x1F4E71cA23f2390669207a06dDDef70BDE75b679" = ([], none) ∧
    registerTokenOp envEmpty "0xtok" =
      ([RegisterEvent.probeSymbol, RegisterEvent.submitRegisterTokenBytes32,
        RegisterEvent.startMonitor], some "0xtok") :=
  ⟨(register_noop_or_submit_then_monitor envRegistering
      "0x1F4E71cA23f2390669207a06dDDef70BDE75b679").1 (by decide),
    by simpa using
      (register_noop_or_submit_then_monitor envEmpty "0xtok").2 (by decide)⟩

/-- C9: for every invalid (or empty) address, the status query returns
undefined, `hasRegistered` coerces that to `false`, and `registerToken`
therefore does not reject the invalid address: it proceeds to the symbol
probe, the registration submission and the monitoring start. -/
theorem invalid_address_register_proceeds (env : ChainEnv) (address : String)
    (h : address = "" ∨ env.isAddr address = false) :
    (getTokenRegisterStatus env address).status = none ∧
    hasRegistered env address = false ∧
    (registerTokenOp env address).1 =
      [RegisterEvent.probeSymbol,
        if (getSymbolType env address).isString then
          RegisterEvent.submitRegisterToken
        else RegisterEvent.submitRegisterTokenBytes32,
        RegisterEvent.startMonitor] := by
  have hs : (getTokenRegisterStatus env address).status = none := by
    rcases h with h | h <;> simp [getTokenRegisterStatus, h]
  have hr : hasRegistered env address = false := by simp [hasRegistered, hs]
  exact ⟨hs, hr, by simp [registerTokenOp, hr]⟩

/-- C9 witness: the no-rejection path evaluated at the empty address in
`envEmpty`. -/
theorem invalid_address_register_proceeds_witness :
    (getTokenRegisterStatus envEmpty "").status = none ∧
    hasRegistered envEmpty "" = false ∧
    (registerTokenOp envEmpty "").1 =
      [RegisterEvent.probeSymbol, RegisterEvent.submitRegisterTokenBytes32,
        RegisterEvent.startMonitor] := by
  simpa using invalid_address_register_proceeds envEmpty "" (Or.inl rfl)

/-- Part of the indexer response body consumed by the pipeline: the
pipeline destructures only `block_hash`. -/
structure IndexerRecord where
  block_hash : String
deriving Repr, DecidableEq

/-- Indexer behaviour: the body the indexer would return to the n-th HTTP
GET of `/api/ethereumIssuing/register` for the monitored address, counting
from 0; `none` models a null/absent body (not yet indexed). -/
def IndexerEnv : Type := Nat → Option IndexerRecord

/-- Observable behaviour of one `monitorEventProof` call, observed for a
bounded number of `retryWhen` resubscriptions: how many HTTP requests were
issued to the indexer, the `delay` durations inserted between successive
subscription attempts, and the `block_hash` handed to `getMPTProof` if the
pipeline ever reached the proof-fetch stage. -/
structure MonitorRun where
  httpQueries : Nat
  delays : List Nat
  proofFetched : Option String
deriving Repr, DecidableEq

/-- Retry loop of the observable pipeline in `monitorEventProof`: each
subscription attempt re-reads `cached`, the already-settled value of the
`api` promise; a null body makes `map` throw, and `retryWhen` re-subscribes
after a `delay(3000)`. `fuel` bounds how many resubscriptions are observed
(the code itself has no bound). -/
def monitorLoop (cached : Option IndexerRecord) : Nat → MonitorRun
  | 0 =>
    match cached with
    | some r => { httpQueries := 0, delays := [], proofFetched := some r.block_hash }
    | none => { httpQueries := 0, delays := [], proofFetched := none }
  | fuel + 1 =>
    match cached with
    | some r => { httpQueries := 0, delays := [], proofFetched := some r.block_hash }
    | none =>
      let rest := monitorLoop cached fuel
      { rest with delays := 3000 :: rest.delays }

/-- Embedding of `monitorEventProof` (token.js lines 161-189): the
`axios.get` call is made exactly once, when the function is called — its
promise is stored in `api` before the observable pipeline is built — so
`ind 0` is the only indexer response the pipeline ever sees; every
`retryWhen` resubscription of `from(api)` merely replays that settled
value. -/
def monitorEventProof (ind : IndexerEnv) (fuel : Nat) : MonitorRun :=
  let run := monitorLoop (ind 0) fuel
  { run with httpQueries := 1 }

/-- Indexer of the C2 scenario: a null body on the first two queries and a
valid record from the third query on. -/
def indexerNullNullRecord : IndexerEnv := fun n =>
  if n < 2 then none else some { block_hash := "0xblock" }

/-- C2 (failing input evaluated): with an indexer that would answer null,
null, then a valid record, `monitorEventProof` issues exactly one HTTP
query — the cached first (null) response — and, however many 3000-delay
retries are observed, never reaches the proof fetch; the claimed three
queries followed by a proof fetch do not happen. -/
theorem monitor_replays_cached_null_response (fuel : Nat) :
    (monitorEventProof indexerNullNullRecord fuel).httpQueries = 1 ∧
    (monitorEventProof indexerNullNullRecord fuel).delays =
      List.replicate fuel 3000 ∧
    (monitorEventProof indexerNullNullRecord fuel).proofFetched = none := by
  refine ⟨rfl, ?_, ?_⟩ <;>
    · induction fuel with
      | zero => rfl
      | succ n ih =>
        simp only [monitorEventProof, indexerNullNullRecord] at ih ⊢
        simp [monitorLoop, List.replicate_succ] at ih ⊢
        simpa using ih

/-- Pipeline outcome of one monitored address at the moment its observable
reaches the shared `proofSubject` through `subscribe(proofSubject)`: a
fetched proof arrives as a `next` notification, a proof-fetch error as an
`error` notification; each is tagged with its monitored address. -/
inductive ProofOutcome
  | event (address proof : String)
  | failure (address msg : String)
deriving Repr, DecidableEq

/-- State of the shared rxjs `Subject` `proofSubject`: a subject that has
received an `error` notification is stopped for good. -/
structure SubjectState where
  stopped : Bool
deriving Repr, DecidableEq

/-- One notification arriving at the shared subject (rxjs `Subject`
semantics): a stopped subject ignores everything; otherwise `next`
broadcasts the (address, proof) pair to the current subscribers and
`error` stops the subject. -/
def subjectStep (s : SubjectState) (o : ProofOutcome) :
    SubjectState × List (String × String) :=
  if s.stopped then (s, [])
  else
    match o with
    | ProofOutcome.event a p => (s, [(a, p)])
    | ProofOutcome.failure _ _ => ({ stopped := true }, [])

/-- Proof events delivered to subscribers of `proofObservable` while the
chronological sequence of pipeline outcomes — across all monitored
addresses — arrives at the subject in state `s`. -/
def subjectDeliveries (s : SubjectState) : List ProofOutcome → List (String × String)
  | [] => []
  | o :: rest =>
    let step := subjectStep s o
    step.2 ++ subjectDeliveries step.1 rest

/-- Deliveries of the process-wide `proofSubject`, which starts live. -/
def proofBusDeliveries (ops : List ProofOutcome) : List (String × String) :=
  subjectDeliveries { stopped := false } ops

theorem subjectDeliveries_of_stopped (ops : List ProofOutcome) :
    subjectDeliveries { stopped := true } ops = [] := by
  induction ops with
  | nil => rfl
  | cons o rest ih => simp [subjectDeliveries, subjectStep, ih]

theorem subjectDeliveries_failure_absorbs (address msg : String)
    (after : List ProofOutcome) :
    ∀ (before : List ProofOutcome) (s : SubjectState),
      subjectDeliveries s (before ++ ProofOutcome.failure address msg :: after) =
        subjectDeliveries s before := by
  intro before
  induction before with
  | nil =>
    intro s
    cases s with
    | mk stopped =>
      cases stopped <;>
        simp [subjectDeliveries, subjectStep, subjectDeliveries_of_stopped]
  | cons o rest ih =>
    intro s
    simp only [List.cons_append, subjectDeliveries, List.append_eq]
    rw [ih]

/-- C10: every monitored address publishes into the one shared subject, and
a proof-fetch failure for any single address is forwarded to it as an
error, which terminates the broadcast: whatever outcomes (for whatever
addresses) follow the failure, subscribers receive exactly the events
delivered before it — no proof event is ever delivered again. -/
theorem failure_terminates_shared_proof_stream (before after : List ProofOutcome)
    (address msg : String) :
    proofBusDeliveries (before ++ ProofOutcome.failure address msg :: after) =
      proofBusDeliveries before :=
  subjectDeliveries_failure_absorbs address msg after before { stopped := false }

/-- Outcome of one `crossSendErc20FromDvmToEth` call: either the function
returns normally or it throws the given error message. -/
inductive CrossSendResult
  | ok
  | thrown (msg : String)
deriving Repr, DecidableEq

/-- Observable behaviour of one `crossSendErc20FromDvmToEth` call:
`crossTransferCall` is `some (token, recipient, amount.toString())` when
the `crossTransfer` call on the mapping contract was made, `none` when it
was never made. -/
structure CrossSendRun where
  crossTransferCall : Option (String × String × String)
  result : CrossSendResult
deriving Repr, DecidableEq

/-- Modelled from the spec: `isNetworkMatch` is imported from `../utils`,
which is not part of src/; per the spec it "validates that the active
wallet's connected network matches the expected destination-chain network
id". -/
def isNetworkMatch (connectedId expectedId : Nat) : Bool :=
  connectedId == expectedId

/-- Error message thrown on a network mismatch (token.js lines 264-266). -/
def networkMismatchMsg : String :=
  "common:Ethereum network type does not match, please switch to \x7b\x7bnetwork\x7d\x7d network in metamask."

/-- Embedding of `crossSendErc20FromDvmToEth` (token.js lines 247-268):
the connected network id is first checked against `config.DVM_NETWORK_ID`;
on a match the `crossTransfer` call on the mapping contract is made with
the token, recipient and stringified amount and its result returned; on a
mismatch the error is thrown and no call is made. -/
def crossSendErc20FromDvmToEth (connectedId expectedId : Nat)
    (tokenAddress recipientAddress : String) (amount : Nat) : CrossSendRun :=
  if isNetworkMatch connectedId expectedId then
    { crossTransferCall :=
        some (tokenAddress, recipientAddress, toString amount)
      result := CrossSendResult.ok }
  else
    { crossTransferCall := none
      result := CrossSendResult.thrown networkMismatchMsg }

/-- C6: a destination-to-source cross send on a wallet whose connected network
id differs from the expected destination-chain id throws the network
mismatch error and never makes the `crossTransfer` call; when the ids
match, the transfer call is made. -/
theorem crossSend_dvm_requires_network_match (connectedId expectedId : Nat)
    (tokenAddress recipientAddress : String) (amount : Nat) :
    (connectedId ≠ expectedId →
      crossSendErc20FromDvmToEth connectedId expectedId tokenAddress
          recipientAddress amount =
        { crossTransferCall := none
          result := CrossSendResult.thrown networkMismatchMsg }) ∧
    (connectedId = expectedId →
      (crossSendErc20FromDvmToEth connectedId expectedId tokenAddress
          recipientAddress amount).crossTransferCall =
        some (tokenAddress, recipientAddress, toString amount)) := by
  constructor <;> intro h <;>
    simp [crossSendErc20FromDvmToEth, isNetworkMatch, h]

/-- C6 witness: both branches evaluated at the scenario of the claim —
connected id 1 against expected id 43 throws without a transfer call, and
connected id 43 against expected id 43 makes the call. -/
theorem crossSend_dvm_requires_network_match_witness :
    crossSendErc20FromDvmToEth 1 43 "0xtok" "0xrec" 25 =
      { crossTransferCall := none
        result := CrossSendResult.thrown networkMismatchMsg } ∧
    (crossSendErc20FromDvmToEth 43 43 "0xtok" "0xrec" 25).crossTransferCall =
      some ("0xtok", "0xrec", "25") :=
  ⟨(crossSend_dvm_requires_network_match 1 43 "0xtok" "0xrec" 25).1
      (by decide),
    (crossSend_dvm_requires_network_match 43 43 "0xtok" "0xrec" 25).2 rfl⟩

/-- Symbol/decimals pair returned by the `tokenInfoGetter` collaborator. -/
structure TokenMeta where
  symbol : String
  decimals : Nat
deriving Repr, DecidableEq

/-- Name/logo pair returned by the `getNameAndLogo` collaborator. -/
structure NameAndLogo where
  name : String
  logo : String
deriving Repr, DecidableEq

/-- Source/backing pair returned by
`mappingContract.methods.tokenToInfo(address).call()`. -/
structure TokenInfoPair where
  source : String
  backing : String
deriving Repr, DecidableEq

/-- Environment of the destination-chain enumeration: `tokenLength`,
`allTokens` and `tokenToInfo` are the mapping-contract reads;
`tokenInfoGetter`, `getNameAndLogo` and `getTokenBalance` are the metadata
collaborators consumed by `getTokenInfo`. -/
structure DvmEnv where
  tokenLength : Nat
  allTokens : Nat → String
  tokenToInfo : String → TokenInfoPair
  tokenInfoGetter : String → TokenMeta
  getNameAndLogo : String → NameAndLogo
  getTokenBalance : String → String → Nat

/-- Record returned by `getTokenInfo` (token.js lines 48-66). -/
structure TokenRecord where
  address : String
  symbol : String
  decimals : Nat
  name : String
  logo : String
  balance : Nat
deriving Repr, DecidableEq

/-- Embedding of `getTokenInfo` (token.js lines 48-66): symbol/decimals
from `tokenInfoGetter`, name/logo from `getNameAndLogo`, and the balance
queried only when an account is present (zero otherwise). -/
def getTokenInfo (env : DvmEnv) (tokenAddress : String)
    (currentAccount : Option String) : TokenRecord :=
  let m := env.tokenInfoGetter tokenAddress
  let nl := env.getNameAndLogo tokenAddress
  let balance :=
    match currentAccount with
    | none => 0
    | some account => env.getTokenBalance tokenAddress account
  { address := tokenAddress, symbol := m.symbol, decimals := m.decimals,
    name := nl.name, logo := nl.logo, balance := balance }

/-- Composed record returned by `getAllTokensDvm`: the JS spread
`{ ...info, ...token }`, where `token.address` (the source address)
overrides nothing of `info` but sits next to its `source`/`backing`. -/
structure DvmToken where
  source : String
  backing : String
  address : String
  symbol : String
  decimals : Nat
  name : String
  logo : String
  balance : Nat
deriving Repr, DecidableEq

/-- Embedding of `getAllTokensDvm` (token.js lines 78-95): reads
`tokenLength`, then for each index independently resolves
`allTokens(index)` to the dvm address and `tokenToInfo` of it to the
`{source, backing}` pair, and decorates with `getTokenInfo` of the SOURCE
address (`info.source`), not the dvm address. -/
def getAllTokensDvm (env : DvmEnv) (currentAccount : Option String) :
    List DvmToken :=
  (List.range env.tokenLength).map (fun index =>
    let address := env.allTokens index
    let info := env.tokenToInfo address
    let token := getTokenInfo env info.source currentAccount
    { source := info.source, backing := info.backing,
      address := token.address, symbol := token.symbol,
      decimals := token.decimals, name := token.name, logo := token.logo,
      balance := token.balance })

/-- C8: for a destination chain with `tokenLength() = n`, the enumeration
returns exactly n composed records, one per index, and the record at index
i is built from the `tokenToInfo` resolution of `allTokens(i)` and
decorated with the metadata (symbol, decimals, name, logo, balance) of the
resolved SOURCE address. Each entry depends on its own index alone, so the
n resolutions are independent. -/
theorem listTokens_dvm_resolves_each_index (env : DvmEnv)
    (account : Option String) :
    (getAllTokensDvm env account).length = env.tokenLength ∧
    (∀ i, i < env.tokenLength →
      (getAllTokensDvm env account)[i]? =
        some { source := (env.tokenToInfo (env.allTokens i)).source
               backing := (env.tokenToInfo (env.allTokens i)).backing
               address := (env.tokenToInfo (env.allTokens i)).source
               symbol := (env.tokenInfoGetter
                 (env.tokenToInfo (env.allTokens i)).source).symbol
               decimals := (env.tokenInfoGetter
                 (env.tokenToInfo (env.allTokens i)).source).decimals
               name := (env.getNameAndLogo
                 (env.tokenToInfo (env.allTokens i)).source).name
               logo := (env.getNameAndLogo
                 (env.tokenToInfo (env.allTokens i)).source).logo
               balance :=
                 match account with
                 | none => 0
                 | some acct => env.getTokenBalance
                     (env.tokenToInfo (env.allTokens i)).source acct }) := by
  constructor
  · simp [getAllTokensDvm]
  · intro i hi
    simp [getAllTokensDvm, List.getElem?_map, List.getElem?_range, hi,
      getTokenInfo]

/-- Sample destination-chain environment with two registered tokens, whose
source metadata differs from the metadata of the dvm addresses. -/
def envDvm : DvmEnv :=
  { tokenLength := 2
    allTokens := fun i => if i = 0 then "0xdvmA" else "0xdvmB"
    tokenToInfo := fun a =>
      if a = "0xdvmA" then { source := "0xsrcA", backing := "0xbackA" }
      else { source := "0xsrcB", backing := "0xbackB" }
    tokenInfoGetter := fun a =>
      if a = "0xsrcA" then { symbol := "AAA", decimals := 18 }
      else if a = "0xsrcB" then { symbol := "BBB", decimals := 9 }
      else { symbol := "", decimals := 0 }
    getNameAndLogo := fun a =>
      if a = "0xsrcA" then { name := "TokenA", logo := "logoA" }
      else if a = "0xsrcB" then { name := "TokenB", logo := "logoB" }
      else { name := "", logo := "" }
    getTokenBalance := fun a _ => if a = "0xsrcA" then 5 else 7 }

/-- C8 witness: in `envDvm` (tokenLength = 2) the enumeration returns two
records, each decorated with its source address's metadata. -/
theorem listTokens_dvm_resolves_each_index_witness :
    (getAllTokensDvm envDvm (some "0xme")).length = 2 ∧
    (getAllTokensDvm envDvm (some "0xme"))[0]? =
      some { source := "0xsrcA", backing := "0xbackA", address := "0xsrcA"
             symbol := "AAA", decimals := 18, name := "TokenA"
             logo := "logoA", balance := 5 } ∧
    (getAllTokensDvm envDvm (some "0xme"))[1]? =
      some { source := "0xsrcB", backing := "0xbackB", address := "0xsrcB"
             symbol := "BBB", decimals := 9, name := "TokenB"
             logo := "logoB", balance := 7 } :=
  ⟨(listTokens_dvm_resolves_each_index envDvm (some "0xme")).1,
    by simpa using
      (listTokens_dvm_resolves_each_index envDvm (some "0xme")).2 0
        (by decide),
    by simpa using
      (listTokens_dvm_resolves_each_index envDvm (some "0xme")).2 1
        (by decide)⟩

end Wormhole
